import Mathlib

/-!
# Verification of the Bitbucket backup/migration system

Shallow embedding of the discovery, filtering, reconciliation and pipeline
orchestration logic of `bitbucket-backup.py` (class `BitbucketMigrationSystem`),
together with proofs settling the frozen claims C1..C10.

Conventions of the embedding:
* a Python instance attribute that the constructor may leave unassigned is an
  `Option` field set to `none` by `mkState`; reading it through `attr`-style
  matches models the `AttributeError` raised on access;
* functions that shell out (git) or perform HTTP are parameterised by oracles
  (`GitOracle`, fetch/server functions) describing the external world;
* a Python function that can raise returns `Except PyError`; a function whose
  body catches all exceptions is total;
* Python `pattern in name` is substring containment on the character lists.
-/

namespace BitbucketBackup

/-- The only Python exception kind the claims need to distinguish:
`AttributeError` from reading a never-assigned instance attribute. -/
inductive PyError where
  | attributeError
deriving Repr, DecidableEq

/-- Python `pat in s` for strings: `pat` occurs contiguously inside `s`. -/
def isSubstringOf (pat s : String) : Bool :=
  decide (pat.data <:+: s.data)

/-- The characters Python `str.strip()` removes (restricted to the common
ASCII whitespace). -/
def isSpaceChar (c : Char) : Bool :=
  c = ' ' || c = '\t' || c = '\n' || c = '\r'

/-- `str.strip()`, written on the character list so that kernel reduction
works on concrete inputs. -/
def strTrim (s : String) : String :=
  ⟨((s.data.dropWhile isSpaceChar).reverse.dropWhile isSpaceChar).reverse⟩

/-- `str.lower()` for ASCII letters. -/
def lowerChar (c : Char) : Char :=
  if 'A' ≤ c && c ≤ 'Z' then Char.ofNat (c.toNat + 32) else c

/-- `str.lower()`. -/
def strToLower (s : String) : String :=
  ⟨s.data.map lowerChar⟩

/-- `str.split(sep)` on the character level (one-character separator). -/
def splitChars (sep : Char) : List Char → List (List Char)
  | [] => [[]]
  | c :: rest =>
    match splitChars sep rest with
    | [] => if c = sep then [[], []] else [[c]]
    | g :: gs => if c = sep then [] :: g :: gs else (c :: g) :: gs

/-- `str.split(sep)`. -/
def strSplitOn (sep : Char) (s : String) : List String :=
  (splitChars sep s.data).map (fun l => ⟨l⟩)

/-- Decimal value of a digit string (the success path of Python `int`). -/
def strToNatAux : List Char → Nat → Option Nat
  | [], acc => some acc
  | c :: rest, acc =>
    if c.isDigit then strToNatAux rest (acc * 10 + (c.toNat - 48)) else none

/-- Parse a non-negative decimal string. -/
def strToNat? (s : String) : Option Nat :=
  if s.data.isEmpty then none else strToNatAux s.data 0

/-- `parse_filter_patterns` (bitbucket-backup.py:176-180): split a
comma-separated string, strip whitespace, drop empty entries. -/
def parse_filter_patterns (patterns_str : String) : List String :=
  if strTrim patterns_str = "" then []
  else ((strSplitOn ',' patterns_str).map strTrim).filter (fun p => p ≠ "")

/-- The process environment: `os.environ.get`. -/
abbrev Env := String → Option String

/-- `os.environ.get(key, dflt)`. -/
def envStr (env : Env) (key dflt : String) : String :=
  (env key).getD dflt

/-- `os.environ.get(key, dflt).lower() == 'true'`. -/
def envFlag (env : Env) (key dflt : String) : Bool :=
  strToLower (envStr env key dflt) = "true"

/-- `int(os.environ.get(key, dflt))`; a non-numeric override would raise in
Python, which no claim exercises, so the default is used instead. -/
def envNat (env : Env) (key : String) (dflt : Nat) : Nat :=
  (strToNat? ((env key).getD (toString dflt))).getD dflt

/-- The instance attributes of `BitbucketMigrationSystem` that the modelled
methods read.  The four `Option` fields at the end correspond to attributes
that are READ somewhere in the class but are never assigned by `__init__`
(nor anywhere else): `workspace_filters` (read by `apply_workspace_filters`)
and `bitbucket_username` / `bitbucket_workspace` / `bitbucket_api_token`
(read by `clone_repository`).  Unrelated configuration (SMTP, timeouts,
batch size) is omitted. -/
structure SysState where
  migration_mode : Bool
  source_email : String
  source_api_token : String
  source_username : String
  multi_workspace_mode : Bool
  source_workspace : String
  dest_workspace : String
  dest_email : String
  dest_api_token : String
  dest_username : String
  preserve_repo_names : Bool
  /-- source attribute `repo_name_prefix` (renamed for the Lean lexer). -/
  repo_name_pref : String
  skip_existing_repos : Bool
  backup_base_dir : String
  max_backups : Nat
  auto_discover_all : Bool
  workspace_include_patterns : List String
  workspace_exclude_patterns : List String
  repo_include_patterns : List String
  repo_exclude_patterns : List String
  auto_discovery_max_repos : Nat
  workspace_filters : Option (List String)
  bitbucket_username : Option String
  bitbucket_workspace : Option String
  bitbucket_api_token : Option String
deriving Repr, DecidableEq

/-- `BitbucketMigrationSystem.__init__` (bitbucket-backup.py:25-125), restricted
to the modelled attributes.  The four trailing fields are `none`: `__init__`
performs no assignment to them. -/
def mkState (env : Env) : SysState where
  migration_mode := envFlag env "MIGRATION_MODE" "true"
  source_email := envStr env "SOURCE_ATLASSIAN_EMAIL" ""
  source_api_token := envStr env "SOURCE_BITBUCKET_API_TOKEN" ""
  source_username := envStr env "SOURCE_BITBUCKET_USERNAME" ""
  multi_workspace_mode := envFlag env "MULTI_WORKSPACE_MODE" "false"
  source_workspace := envStr env "SOURCE_BITBUCKET_WORKSPACE" ""
  dest_workspace := envStr env "DEST_BITBUCKET_WORKSPACE" ""
  dest_email := envStr env "DEST_ATLASSIAN_EMAIL" ""
  dest_api_token := envStr env "DEST_BITBUCKET_API_TOKEN" ""
  dest_username := envStr env "DEST_BITBUCKET_USERNAME" ""
  preserve_repo_names := envFlag env "PRESERVE_REPO_NAMES" "true"
  repo_name_pref := envStr env "REPO_NAME_PREFIX" ""
  skip_existing_repos := envFlag env "SKIP_EXISTING_REPOS" "true"
  backup_base_dir := envStr env "BACKUP_BASE_DIR" "/opt/bitbucket-backup"
  max_backups := envNat env "MAX_BACKUPS" 5
  auto_discover_all := envFlag env "AUTO_DISCOVER_ALL" "false"
  workspace_include_patterns := parse_filter_patterns (envStr env "WORKSPACE_INCLUDE_PATTERNS" "")
  workspace_exclude_patterns := parse_filter_patterns (envStr env "WORKSPACE_EXCLUDE_PATTERNS" "")
  repo_include_patterns := parse_filter_patterns (envStr env "REPO_INCLUDE_PATTERNS" "")
  repo_exclude_patterns := parse_filter_patterns (envStr env "REPO_EXCLUDE_PATTERNS" "")
  auto_discovery_max_repos := envNat env "AUTO_DISCOVERY_MAX_REPOS" 1000
  workspace_filters := none
  bitbucket_username := none
  bitbucket_workspace := none
  bitbucket_api_token := none

/-- A state produced from an empty environment (every configuration default). -/
def baseState : SysState := mkState (fun _ => none)

/-- One entry of a repository's `links.clone` list. -/
structure CloneLink where
  name : String
  href : String
deriving Repr, DecidableEq

/-- A repository object as returned by the Bitbucket API, restricted to the
fields the modelled code reads. -/
structure ApiRepo where
  name : String
  is_private : Bool := true
  scm : String := "git"
  language : String := ""
  size : Nat := 0
  has_issues : Bool := false
  has_wiki : Bool := false
  links : List CloneLink := []
deriving Repr, DecidableEq

/-! ## Filter engine -/

/-- The `for repo in repositories` loop body of `apply_repository_filters`
(bitbucket-backup.py:862-884): skip a repository that fails a configured
include check or matches a configured exclude pattern; `break` out of the loop
(returning the accumulator) when the accumulator has already reached
`auto_discovery_max_repos` and another repository passes the filters. -/
def apply_repository_filters_loop (s : SysState) :
    List ApiRepo → List ApiRepo → List ApiRepo
  | [], filtered => filtered
  | repo :: rest, filtered =>
    if !s.repo_include_patterns.isEmpty &&
        !(s.repo_include_patterns.any (fun p => isSubstringOf p repo.name)) then
      apply_repository_filters_loop s rest filtered
    else if s.repo_exclude_patterns.any (fun p => isSubstringOf p repo.name) then
      apply_repository_filters_loop s rest filtered
    else if filtered.length ≥ s.auto_discovery_max_repos then
      filtered
    else
      apply_repository_filters_loop s rest (filtered ++ [repo])

/-- `apply_repository_filters` (bitbucket-backup.py:857-888).  When neither
include nor exclude patterns are configured the input list is returned
unchanged (bitbucket-backup.py:859-860); the `workspace_slug` argument is used
only for logging and is omitted. -/
def apply_repository_filters (s : SysState) (repositories : List ApiRepo) :
    List ApiRepo :=
  if s.repo_include_patterns.isEmpty && s.repo_exclude_patterns.isEmpty then
    repositories
  else
    apply_repository_filters_loop s repositories []

/-- The per-candidate admission test implicit in the loop of
`apply_repository_filters`: pass the include check (vacuously when no include
patterns are configured) and fail every exclude pattern. -/
def repo_matches (s : SysState) (name : String) : Bool :=
  (s.repo_include_patterns.isEmpty ||
    s.repo_include_patterns.any (fun p => isSubstringOf p name)) &&
  !(s.repo_exclude_patterns.any (fun p => isSubstringOf p name))

/-- Modelled from the spec (4.2 Filter Engine), for comparison with the
source's admission test: if any exclude pattern is a substring of the
candidate, reject; else if include patterns are configured, admit only when
one is a substring; else admit. -/
def specFilterMatches (s : SysState) (name : String) : Bool :=
  if s.repo_exclude_patterns.any (fun p => isSubstringOf p name) then false
  else if !s.repo_include_patterns.isEmpty then
    s.repo_include_patterns.any (fun p => isSubstringOf p name)
  else true

/-- `apply_workspace_filters` (bitbucket-backup.py:710-736).  The guard
`if not hasattr(self, 'workspace_filters') or not self.workspace_filters`
returns the discovered list unchanged; otherwise workspaces failing a
configured include check or matching a configured exclude pattern are
skipped and the rest kept in order. -/
def apply_workspace_filters (s : SysState) (discovered_workspaces : List String) :
    List String :=
  match s.workspace_filters with
  | none => discovered_workspaces
  | some [] => discovered_workspaces
  | some _ =>
    discovered_workspaces.filter (fun w =>
      (s.workspace_include_patterns.isEmpty ||
        s.workspace_include_patterns.any (fun p => isSubstringOf p w)) &&
      !(s.workspace_exclude_patterns.any (fun p => isSubstringOf p w)))

/-! ## Python dict as an insertion-ordered association list -/

/-- `d[k]` lookup (as `Option`): first binding for `k`. -/
def dictGet? {α : Type} (m : List (String × α)) (k : String) : Option α :=
  (m.find? (fun p => p.1 = k)).map (fun p => p.2)

/-- `d[k] = v` assignment on an insertion-ordered dict: overwrite the first
binding in place if the key is present, otherwise append. -/
def dictSet {α : Type} : List (String × α) → String → α → List (String × α)
  | [], k, v => [(k, v)]
  | p :: rest, k, v =>
    if p.1 = k then (k, v) :: rest else p :: dictSet rest k v

/-! ## Discovery engine -/

/-- The `repo_info` dict built per repository inside
`discover_all_repositories_in_workspaces` (bitbucket-backup.py:634-650),
restricted to the modelled `ApiRepo` fields plus the attached workspace
provenance. -/
structure RepoInfo where
  name : String
  is_private : Bool
  scm : String
  language : String
  size : Nat
  has_issues : Bool
  has_wiki : Bool
  workspace : String
  auto_discovered : Bool
deriving Repr, DecidableEq

/-- Build one `repo_info` record from an API repository object
(bitbucket-backup.py:635-650). -/
def mkRepoInfo (workspace_slug : String) (repo : ApiRepo) : RepoInfo where
  name := repo.name
  is_private := repo.is_private
  scm := repo.scm
  language := repo.language
  size := repo.size
  has_issues := repo.has_issues
  has_wiki := repo.has_wiki
  workspace := workspace_slug
  auto_discovered := true

/-- One value of the `all_repositories` dict built by
`discover_all_repositories_in_workspaces` (bitbucket-backup.py:653-683):
workspace detail blob, repository list, count, and the error string recorded
when scanning that workspace raised. -/
structure WorkspaceEntry where
  workspace_info : Option String
  repositories : List RepoInfo
  repo_count : Nat
  error : Option String
deriving Repr, DecidableEq

/-- The body of the `for workspace_slug in workspaces_list` loop of
`discover_all_repositories_in_workspaces` (bitbucket-backup.py:625-683):
an exception while scanning yields an entry with an empty repository list and
the error recorded; an empty (falsy) result list yields an empty entry; a
non-empty result is mapped through `repo_info` construction.  `fetch` models
`fetch_paginated_data('repositories/{slug}')` together with any exception the
scan raises, and `details` models `discovered_workspace_details.get`. -/
def workspaceEntryFor (fetch : String → Except String (List ApiRepo))
    (details : String → Option String) (workspace_slug : String) :
    WorkspaceEntry :=
  match fetch workspace_slug with
  | .error e =>
    { workspace_info := details workspace_slug, repositories := [],
      repo_count := 0, error := some e }
  | .ok repos_data =>
    if repos_data.isEmpty then
      { workspace_info := details workspace_slug, repositories := [],
        repo_count := 0, error := none }
    else
      let workspace_repos := repos_data.map (mkRepoInfo workspace_slug)
      { workspace_info := details workspace_slug,
        repositories := workspace_repos,
        repo_count := workspace_repos.length, error := none }

/-- `discover_all_repositories_in_workspaces` (bitbucket-backup.py:618-686):
fold the per-workspace scan over the input list, assigning one dict entry per
workspace slug. -/
def discover_all_repositories_in_workspaces
    (fetch : String → Except String (List ApiRepo))
    (details : String → Option String) (workspaces_list : List String) :
    List (String × WorkspaceEntry) :=
  workspaces_list.foldl
    (fun all_repositories ws =>
      dictSet all_repositories ws (workspaceEntryFor fetch details ws)) []

/-- Steps 2-3 of `auto_discover_complete_structure`
(bitbucket-backup.py:688-708): apply the workspace filters to the discovered
slug list, then discover repositories in the filtered workspaces.  Step 1
(`discover_all_workspaces`) is HTTP and enters as `discovered`. -/
def auto_discover_structure (s : SysState) (discovered : List String)
    (fetch : String → Except String (List ApiRepo))
    (details : String → Option String) : List (String × WorkspaceEntry) :=
  discover_all_repositories_in_workspaces fetch details
    (apply_workspace_filters s discovered)

/-! ## Paginated fetching -/

/-- One page of a Bitbucket list endpoint: `{values: [...], next: url-or-null}`. -/
structure Page (α : Type) where
  values : List α
  next : Option String
deriving Repr, DecidableEq

/-- Result of the pagination loop under a fuel bound: `done` when the loop
exited (no `next` cursor, or a request error broke the loop), `outOfFuel`
when the fuel ran out with the loop still running — i.e. the Python loop has
not terminated within `fuel` iterations. -/
inductive PagedResult (α : Type) where
  | done (all_data : List α)
  | outOfFuel (all_data : List α)
deriving Repr, DecidableEq

/-- The `while next_url` loop shared by `fetch_paginated_data`
(bitbucket-backup.py:182-210) and `fetch_paginated_data_with_auth`
(bitbucket-backup.py:233-262): request the current URL; on a request error,
`break`; otherwise extend `all_data` with the page's `values` and continue
from `data.get('next')`.  There is no comparison of the new cursor against
the current one. -/
def fetchPages {α : Type} (server : String → Except String (Page α)) :
    Nat → String → List α → PagedResult α
  | 0, _, all_data => .outOfFuel all_data
  | fuel + 1, next_url, all_data =>
    match server next_url with
    | .error _ => .done all_data
    | .ok data =>
      match data.next with
      | none => .done (all_data ++ data.values)
      | some url => fetchPages server fuel url (all_data ++ data.values)

/-- `fetch_paginated_data` (bitbucket-backup.py:182-210); the server oracle is
already composed with `self.auth`. -/
def fetch_paginated_data {α : Type} (server : String → Except String (Page α))
    (fuel : Nat) (endpoint_url : String) : PagedResult α :=
  fetchPages server fuel endpoint_url []

/-- `fetch_paginated_data_with_auth` (bitbucket-backup.py:233-262); identical
loop, the explicit auth pair being part of the server oracle. -/
def fetch_paginated_data_with_auth {α : Type}
    (server : String → Except String (Page α)) (fuel : Nat)
    (endpoint_url : String) : PagedResult α :=
  fetchPages server fuel endpoint_url []

/-! ## Git clone step -/

/-- Outcome of one `subprocess.run(['git', ...])` invocation: process exit
with a return code, `subprocess.TimeoutExpired`, or some other OS-level
exception. -/
inductive GitOutcome where
  | exited (returncode : Int)
  | timedOut
  | osError
deriving Repr, DecidableEq

/-- The external git collaborator: command line → outcome. -/
abbrev GitOracle := List String → GitOutcome

/-- The HTTPS clone-URL search at the top of `clone_repository`
(bitbucket-backup.py:1216-1219): first link named `https`. -/
def find_https_clone_url (repo : ApiRepo) : Option String :=
  (repo.links.find? (fun l => l.name = "https")).map (fun l => l.href)

/-- `clone_url.split('@', 1)[1]`: everything after the first `@` (the caller
guards on an `@` being present). -/
def afterFirstAtChars : List Char → List Char
  | [] => []
  | '@' :: rest => rest
  | _ :: rest => afterFirstAtChars rest

/-- Python `'@' in clone_url`. -/
def strContainsChar (s : String) (c : Char) : Bool :=
  s.data.any (fun d => d = c)

/-- `clone_url.replace('https://', '')`: remove every occurrence of the
scheme, left to right. -/
def removeHttpsScheme : List Char → List Char
  | 'h' :: 't' :: 't' :: 'p' :: 's' :: ':' :: '/' :: '/' :: rest =>
    removeHttpsScheme rest
  | c :: rest => c :: removeHttpsScheme rest
  | [] => []

/-- The credential-stripping block of `clone_repository`
(bitbucket-backup.py:1234-1239): keep everything after the first `@` when one
is present, otherwise drop the `https://` scheme. -/
def extract_base_url (clone_url : String) : String :=
  if strContainsChar clone_url '@' then ⟨afterFirstAtChars clone_url.data⟩
  else ⟨removeHttpsScheme clone_url.data⟩

/-- `clone_repository` (bitbucket-backup.py:1210-1278).  Returns the Python
result (`None` or the timestamped directory, or an uncaught exception)
together with the list of git command lines actually invoked.  Control flow:
no HTTPS link → return `None` with no git run; otherwise the authenticated
URL is built from `self.bitbucket_username` / `self.bitbucket_workspace` /
`self.bitbucket_api_token` — reading an unassigned attribute raises
`AttributeError` before any git command (the `try` block starts only at the
mirror invocation); a mirror clone that exits non-zero, times out, or raises
returns `None`; a mirror success returns the directory whether or not the
shallow working-copy clone succeeds (a working-copy timeout is caught by the
same handler and returns `None`). -/
def clone_repository (s : SysState) (timestamp : String) (repo : ApiRepo)
    (git : GitOracle) : Except PyError (Option String) × List (List String) :=
  match find_https_clone_url repo with
  | none => (.ok none, [])
  | some clone_url =>
    let repos_dir := s.backup_base_dir ++ "/repositories"
    let timestamped_dir := repos_dir ++ "/" ++ repo.name ++ "/" ++ timestamp
    let base_url := extract_base_url clone_url
    match s.bitbucket_username with
    | none => (.error .attributeError, [])
    | some bu =>
      let usernameE : Except PyError String :=
        if bu ≠ "" then .ok bu
        else
          match s.bitbucket_workspace with
          | none => .error .attributeError
          | some bw => .ok bw
      match usernameE with
      | .error e => (.error e, [])
      | .ok username =>
        match s.bitbucket_api_token with
        | none => (.error .attributeError, [])
        | some token =>
          let auth_url :=
            "https://" ++ username ++ ":" ++ token ++ "@" ++ base_url
          let mirrorCmd :=
            ["git", "clone", "--mirror", auth_url, timestamped_dir ++ "/repo.git"]
          match git mirrorCmd with
          | .timedOut => (.ok none, [mirrorCmd])
          | .osError => (.ok none, [mirrorCmd])
          | .exited code =>
            if code ≠ 0 then (.ok none, [mirrorCmd])
            else
              let workCmd :=
                ["git", "clone", "--depth=1", auth_url, timestamped_dir ++ "/working"]
              match git workCmd with
              | .timedOut => (.ok none, [mirrorCmd, workCmd])
              | .osError => (.ok none, [mirrorCmd, workCmd])
              | .exited _ => (.ok (some timestamped_dir), [mirrorCmd, workCmd])

/-! ## Destination repository creation (reconciliation) -/

/-- A repository record on the destination side (dict value of
`existing_dest_repos`, or the JSON body of a successful create response). -/
structure DestRepo where
  name : String
  full_name : String := ""
deriving Repr, DecidableEq

/-- Outcome of `POST /repositories/{dest_workspace}/{target_name}`. -/
inductive CreateApiResult where
  | created (r : DestRepo)
  | conflict
  | requestError
deriving Repr, DecidableEq

/-- The target-name computation of `create_migrated_repository`
(bitbucket-backup.py:1286-1289). -/
def migration_target_name (s : SysState) (repo : ApiRepo) : String :=
  if s.preserve_repo_names then repo.name else s.repo_name_pref ++ repo.name

/-- `create_migrated_repository` (bitbucket-backup.py:1281-1331).  Returns the
resulting destination record (or `None` on a failed create) together with the
list of target names POSTed.  When `existing_dest_repos` is truthy (passed and
non-empty) and contains the target name: if `skip_existing_repos`, the
existing record is returned with no create call; otherwise a warning is logged
and the create is attempted anyway.  A request error during the create is
caught and yields `None`. -/
def create_migrated_repository (s : SysState) (repo : ApiRepo)
    (existing_dest_repos : Option (List (String × DestRepo)))
    (api : String → CreateApiResult) : Option DestRepo × List String :=
  let target_name := migration_target_name s repo
  let existingHit : Option DestRepo :=
    match existing_dest_repos with
    | none => none
    | some m => if m.isEmpty then none else dictGet? m target_name
  match existingHit with
  | some existing =>
    if s.skip_existing_repos then (some existing, [])
    else
      match api target_name with
      | .created r => (some r, [target_name])
      | .conflict => (none, [target_name])
      | .requestError => (none, [target_name])
  | none =>
    match api target_name with
    | .created r => (some r, [target_name])
    | .conflict => (none, [target_name])
    | .requestError => (none, [target_name])

/-- `create_mirror_repository` (bitbucket-backup.py:1333-1335): the legacy
wrapper the orchestrator loop actually calls.  It forwards WITHOUT the
`existing_dest_repos` argument, which therefore defaults to `None`. -/
def create_mirror_repository (s : SysState) (repo : ApiRepo)
    (api : String → CreateApiResult) : Option DestRepo × List String :=
  create_migrated_repository s repo none api

/-! ## Retention pruning -/

/-- A filesystem entry (archive file or timestamped directory) with its
modification time. -/
structure FsEntry where
  name : String
  mtime : Nat
deriving Repr, DecidableEq

/-- Strict total order used to model Python's stable
`sort(key=lambda x: x[1], reverse=True)`: newest first, original position
breaking ties.  The entries are paired with their input positions. -/
def fsBeforeDesc (a b : Nat × FsEntry) : Bool :=
  decide (b.2.mtime < a.2.mtime) ||
    (decide (b.2.mtime = a.2.mtime) && decide (a.1 ≤ b.1))

/-- Insert into a list sorted by `fsBeforeDesc`. -/
def insertDesc (x : Nat × FsEntry) : List (Nat × FsEntry) → List (Nat × FsEntry)
  | [] => [x]
  | y :: rest => if fsBeforeDesc x y then x :: y :: rest else y :: insertDesc x rest

/-- Stable descending-by-mtime sort (the two `sort(..., reverse=True)` calls in
`cleanup_old_backups`). -/
def sortByMtimeDesc (l : List FsEntry) : List FsEntry :=
  ((l.enum.foldr insertDesc []).map (fun p => p.2))

/-- The outcome of `cleanup_old_backups`: names successfully removed and names
whose removal raised (the exception is caught and logged; the loop
continues). -/
structure CleanupResult where
  removed_archives : List String
  failed_archive_removals : List String
  removed_dirs : List String
  failed_dir_removals : List String
deriving Repr, DecidableEq

/-- The removal loops of `cleanup_old_backups` (bitbucket-backup.py:2049-2058
and 2074-2080): attempt each deletion in order; a failure is caught, recorded,
and never stops the remaining deletions.  `removeOk` models whether the
`os.remove` / `shutil.rmtree` call succeeds for a given name. -/
def attemptRemovals (removeOk : String → Bool) (files : List FsEntry) :
    List String × List String :=
  files.foldl
    (fun acc f =>
      if removeOk f.name then (acc.1 ++ [f.name], acc.2)
      else (acc.1, acc.2 ++ [f.name]))
    ([], [])

/-- `cleanup_old_backups` (bitbucket-backup.py:2021-2080), parameterised by the
directory listings (`backup_files`: the `.tar.gz` entries with mtimes;
`timestamped_dirs`: the non-`.git` subdirectories with mtimes).  Sort archives
newest-first; if at most `max_backups` exist, return with NO deletions at all
(the early return also skips the directory section).  Otherwise delete every
archive after the newest `max_backups`, then prune the timestamped
directories by the same keep-newest rule when they number more than
`max_backups`. -/
def cleanup_old_backups (s : SysState)
    (backup_files timestamped_dirs : List FsEntry)
    (removeOk : String → Bool) : CleanupResult :=
  let backup_files_sorted := sortByMtimeDesc backup_files
  if backup_files_sorted.length ≤ s.max_backups then
    { removed_archives := [], failed_archive_removals := [],
      removed_dirs := [], failed_dir_removals := [] }
  else
    let files_to_remove := backup_files_sorted.drop s.max_backups
    let archiveOutcome := attemptRemovals removeOk files_to_remove
    let timestamped_dirs_sorted := sortByMtimeDesc timestamped_dirs
    if timestamped_dirs_sorted.length > s.max_backups then
      let dirs_to_remove := timestamped_dirs_sorted.drop s.max_backups
      let dirOutcome := attemptRemovals removeOk dirs_to_remove
      { removed_archives := archiveOutcome.1,
        failed_archive_removals := archiveOutcome.2,
        removed_dirs := dirOutcome.1,
        failed_dir_removals := dirOutcome.2 }
    else
      { removed_archives := archiveOutcome.1,
        failed_archive_removals := archiveOutcome.2,
        removed_dirs := [], failed_dir_removals := [] }

/-! ## Pipeline orchestrator -/

/-- Behaviour of one pipeline step as observed by the `try` block of the
orchestrator loop: either it raises an exception (caught by the per-repository
handler) or it returns a value. -/
inductive StepOut (α : Type) where
  | raises
  | rets (a : α)
deriving Repr, DecidableEq

/-- Map a returned value (a raise stays a raise). -/
def StepOut.mapVal {α β : Type} (f : α → β) : StepOut α → StepOut β
  | .raises => .raises
  | .rets a => .rets (f a)

/-- What the external world does for one repository's pipeline steps
(bitbucket-backup.py:2398-2470).  `metadata`, `clone` and `archive` carry the
returned path (`None` on an internally caught failure); `ensure` carries the
destination record returned by `create_mirror_repository`; the Bool result of
`push` is discarded by the loop (bitbucket-backup.py:2428). -/
structure RepoBehavior where
  repo : ApiRepo
  metadata : StepOut (Option String)
  clone : StepOut (Option String)
  ensure : StepOut (Option DestRepo)
  push : StepOut Bool
  archive : StepOut (Option String)
  cleanup : StepOut Unit
deriving Repr, DecidableEq

/-- The `repo_stats` dict recorded per repository (bitbucket-backup.py:
2391-2396); the `size` and `metadata_items` bookkeeping reads filesystem
values outside this embedding and is not modelled. -/
structure RepoStats where
  name : String
  success : Bool
deriving Repr, DecidableEq

/-- Everything one iteration of the repository loop produces: the appended
`repo_stats` (the `finally` block appends it in every case), whether the
run-level error list received an entry, and whether the post-iteration
`time.sleep(1)` executed (the `continue` in the exception handler skips
it, bitbucket-backup.py:2471-2480). -/
structure IterResult where
  stats : RepoStats
  errorLogged : Option String
  slept : Bool
deriving Repr, DecidableEq

/-- One iteration of the `for repo in repositories` loop of
`backup_all_repositories` (bitbucket-backup.py:2385-2480).  Steps run in
order; the first uncaught exception jumps to the handler, which records the
error and `continue`s (skipping the sleep); step results are otherwise only
used in the truthiness guards: push runs only when both the clone path and
the destination record are present; the metadata-restoration block (step 5)
wraps its body in its own try/except and so never fails the repository;
archiving runs only when the clone path and metadata path are present.  If
every executed step returns, `success_count` is incremented,
`repo_stats['success']` is set, and the iteration sleeps. -/
def processOneRepo (_migration_mode : Bool) (b : RepoBehavior) : IterResult :=
  let failed : IterResult :=
    { stats := { name := b.repo.name, success := false },
      errorLogged := some ("Error processing " ++ b.repo.name),
      slept := false }
  match b.metadata with
  | .raises => failed
  | .rets metadata_path =>
    match b.clone with
    | .raises => failed
    | .rets local_repo_path =>
      match b.ensure with
      | .raises => failed
      | .rets mirror_repo =>
        let pushOut : StepOut Unit :=
          if local_repo_path.isSome && mirror_repo.isSome then
            b.push.mapVal (fun _ => ())
          else .rets ()
        match pushOut with
        | .raises => failed
        | .rets _ =>
          let archiveOut : StepOut Unit :=
            if local_repo_path.isSome && metadata_path.isSome then
              b.archive.mapVal (fun _ => ())
            else .rets ()
          match archiveOut with
          | .raises => failed
          | .rets _ =>
            match b.cleanup with
            | .raises => failed
            | .rets _ =>
              { stats := { name := b.repo.name, success := true },
                errorLogged := none, slept := true }

/-- The `backup_stats` aggregate at the end of `backup_all_repositories`
(bitbucket-backup.py:2482-2487). -/
structure RunStats where
  total_repos : Nat
  successful_repos : Nat
  failed_repos : Nat
  repo_details : List RepoStats
  errors : List String
deriving Repr, DecidableEq

/-- The repository loop and final accounting of `backup_all_repositories`
(bitbucket-backup.py:2366-2495): an empty repository list returns failure
before the loop; otherwise every repository is processed in order (one
repository's failure never stops the loop), statistics are accumulated, and
the run succeeds iff `success_count == len(repositories)`. -/
def backup_all_repositories (migration_mode : Bool)
    (repositories : List RepoBehavior) : RunStats × Bool :=
  if repositories.isEmpty then
    ({ total_repos := 0, successful_repos := 0, failed_repos := 0,
       repo_details := [], errors := ["No repositories found"] }, false)
  else
    let iters := repositories.map (processOneRepo migration_mode)
    let success_count := (iters.filter (fun i => i.stats.success)).length
    ({ total_repos := repositories.length,
       successful_repos := success_count,
       failed_repos := repositories.length - success_count,
       repo_details := iters.map (fun i => i.stats),
       errors := iters.filterMap (fun i => i.errorLogged) },
     decide (success_count = repositories.length))

/-- The tail of `main` (bitbucket-backup.py:2585-2587):
`sys.exit(0 if success else 1)`. -/
def mainExitCode (migration_mode : Bool) (repositories : List RepoBehavior) :
    Nat :=
  if (backup_all_repositories migration_mode repositories).2 then 0 else 1

/-- The post-iteration `time.sleep(1)` flag of one iteration. -/
def iterationSlept (migration_mode : Bool) (b : RepoBehavior) : Bool :=
  (processOneRepo migration_mode b).slept

/-! ## Concrete scenario inputs used by the claim theorems -/

/-- Configuration of end-to-end scenario A: repository include pattern
`"app"`, exclude pattern `"test"` (defaults otherwise, in particular
`AUTO_DISCOVERY_MAX_REPOS = 1000`). -/
def scenarioAState : SysState :=
  { baseState with
    repo_include_patterns := ["app"], repo_exclude_patterns := ["test"] }

/-- The three discovered repositories of scenarios A and C. -/
def scenarioARepos : List ApiRepo :=
  [{ name := "app" }, { name := "app-test" }, { name := "lib" }]

/-- A state with one include pattern configured and
`auto_discovery_max_repos = 0`. -/
def capZeroState : SysState :=
  { baseState with repo_include_patterns := ["a"], auto_discovery_max_repos := 0 }

/-- A one-repository input list for the cap test. -/
def capZeroRepos : List ApiRepo := [{ name := "app" }]

/-- Environment configuring a workspace exclude pattern `"test"` and nothing
else. -/
def wsExcludeEnv : Env :=
  fun k => if k = "WORKSPACE_EXCLUDE_PATTERNS" then some "test" else none

/-- Two discovered workspace slugs, the second matching the exclude pattern. -/
def wsDiscovered : List String := ["prod", "test-ws"]

/-- A repository-listing oracle for the workspace-filter scenario: every
workspace lists one repository named after it. -/
def wsFetch : String → Except String (List ApiRepo) :=
  fun ws => .ok [{ name := ws ++ "-repo" }]

/-- Empty workspace-detail map. -/
def noDetails : String → Option String := fun _ => none

/-- The degenerate response stream of C5: every request for `u` answers with
an empty item list and a `next` cursor equal to `u` itself. -/
def degenerateServer (u : String) : String → Except String (Page Nat) :=
  fun _ => .ok { values := [], next := some u }

/-- Seven archives with ascending modification times (scenario D). -/
def sevenArchives : List FsEntry :=
  [{ name := "a1", mtime := 1 }, { name := "a2", mtime := 2 },
   { name := "a3", mtime := 3 }, { name := "a4", mtime := 4 },
   { name := "a5", mtime := 5 }, { name := "a6", mtime := 6 },
   { name := "a7", mtime := 7 }]

/-- Three archives for the fewer-than-`max_backups` repository. -/
def threeArchives : List FsEntry :=
  [{ name := "b1", mtime := 1 }, { name := "b2", mtime := 2 },
   { name := "b3", mtime := 3 }]

/-- Six timestamped working directories with ascending modification times. -/
def sixDirs : List FsEntry :=
  [{ name := "d1", mtime := 1 }, { name := "d2", mtime := 2 },
   { name := "d3", mtime := 3 }, { name := "d4", mtime := 4 },
   { name := "d5", mtime := 5 }, { name := "d6", mtime := 6 }]

/-- Deletion oracle where every removal succeeds. -/
def allRemovalsOk : String → Bool := fun _ => true

/-- Deletion oracle where removing `"a2"` raises and every other removal
succeeds. -/
def a2RemovalFails : String → Bool := fun n => n ≠ "a2"

/-- Pipeline behaviour of a repository for which every step succeeds. -/
def allStepsOk (n : String) : RepoBehavior where
  repo := { name := n }
  metadata := .rets (some ("/opt/bitbucket-backup/metadata/" ++ n))
  clone := .rets (some ("/opt/bitbucket-backup/repositories/" ++ n))
  ensure := .rets (some { name := n })
  push := .rets true
  archive := .rets (some ("/opt/bitbucket-backup/repositories/" ++ n ++ ".tar.gz"))
  cleanup := .rets ()

/-- Pipeline behaviour of repository `"lib"` whose mirror clone exits
non-zero: `clone_repository` swallows the failure and returns `None`
(modelled below by `libGitOracle`), every other step succeeds. -/
def libCloneFails : RepoBehavior :=
  { allStepsOk "lib" with clone := .rets none }

/-- The scenario C behaviour list: `"app"` and `"app-test"` fully succeed,
`"lib"`'s mirror clone fails. -/
def scenarioCRun : List RepoBehavior :=
  [allStepsOk "app", allStepsOk "app-test", libCloneFails]

/-- A state in which the three attributes `clone_repository` reads are
present.  `mkState` can never produce such a state (see the C10 theorem);
it isolates the behaviour of the git-failure path from the attribute bug. -/
def stateWithGitCreds : SysState :=
  { baseState with
    bitbucket_username := some "user",
    bitbucket_workspace := some "ws",
    bitbucket_api_token := some "tok" }

/-- The repository `"lib"` with an HTTPS clone link. -/
def libRepo : ApiRepo :=
  { name := "lib",
    links := [{ name := "https", href := "https://bitbucket.org/ws/lib.git" }] }

/-- A git collaborator whose every invocation exits with code 128 (the mirror
clone therefore fails). -/
def gitAlwaysFails : GitOracle := fun _ => .exited 128

/-- A git collaborator whose every invocation exits 0. -/
def gitAlwaysOk : GitOracle := fun _ => .exited 0

/-- The source repository `"app"` of scenario B. -/
def appRepo : ApiRepo := { name := "app" }

/-- Scenario B's pre-fetched destination set: the destination workspace
already contains a repository named `"app"`. -/
def destHasApp : List (String × DestRepo) :=
  [("app", { name := "app", full_name := "dest/app" })]

/-- Scenario B's create endpoint: creating `"app"` again conflicts. -/
def conflictApi : String → CreateApiResult := fun _ => .conflict

/-- A behaviour whose metadata snapshot step raises (first step of the
iteration fails). -/
def metadataRaises : RepoBehavior :=
  { allStepsOk "x" with metadata := .raises }

/-- Repository-listing oracle for the C8 witness: workspace `"alpha"` errors,
workspace `"beta"` lists two repositories. -/
def c8Fetch : String → Except String (List ApiRepo) :=
  fun ws =>
    if ws = "alpha" then .error "HTTP 500"
    else .ok [{ name := "r1" }, { name := "r2" }]

/-- Environment for the C10 witness: nothing configured. -/
def emptyEnv : Env := fun _ => none

/-! ## Helper lemmas -/

theorem apply_repository_filters_loop_eq (s : SysState) (repos : List ApiRepo) :
    ∀ acc : List ApiRepo, acc.length ≤ s.auto_discovery_max_repos →
    apply_repository_filters_loop s repos acc
      = acc ++ (repos.filter (fun r => repo_matches s r.name)).take
          (s.auto_discovery_max_repos - acc.length) := by
  induction repos with
  | nil => intro acc _; simp [apply_repository_filters_loop]
  | cons r rest ih =>
    intro acc h
    simp only [apply_repository_filters_loop]
    by_cases hinc : (!s.repo_include_patterns.isEmpty &&
        !(s.repo_include_patterns.any (fun p => isSubstringOf p r.name))) = true
    · have hm : repo_matches s r.name = false := by
        simp only [repo_matches, Bool.and_eq_true, Bool.not_eq_true'] at hinc ⊢
        simp [hinc.1, hinc.2]
      rw [if_pos hinc, ih acc h]
      simp [List.filter_cons, hm]
    · rw [if_neg hinc]
      by_cases hexc : (s.repo_exclude_patterns.any (fun p => isSubstringOf p r.name)) = true
      · have hm : repo_matches s r.name = false := by simp [repo_matches, hexc]
        rw [if_pos hexc, ih acc h]
        simp [List.filter_cons, hm]
      · have hm : repo_matches s r.name = true := by
          simp only [repo_matches, Bool.and_eq_true, Bool.not_eq_true']
          refine ⟨?_, by simpa using hexc⟩
          simp only [Bool.and_eq_true, Bool.not_eq_true'] at hinc
          cases h2 : s.repo_include_patterns.any (fun p => isSubstringOf p r.name) with
          | false =>
            cases h1 : s.repo_include_patterns.isEmpty with
            | false => exact absurd ⟨h1, h2⟩ hinc
            | true => simp [h1]
          | true => simp [h2]
        rw [if_neg (by simpa using hexc)]
        by_cases hcap : acc.length ≥ s.auto_discovery_max_repos
        · have hlen : acc.length = s.auto_discovery_max_repos := le_antisymm h hcap
          rw [if_pos hcap]
          simp [hlen]
        · rw [if_neg hcap]
          have h2 : (acc ++ [r]).length ≤ s.auto_discovery_max_repos := by
            simp only [List.length_append, List.length_cons, List.length_nil]
            omega
          rw [ih (acc ++ [r]) h2]
          have h3 : s.auto_discovery_max_repos - acc.length
              = (s.auto_discovery_max_repos - (acc ++ [r]).length) + 1 := by
            simp only [List.length_append, List.length_cons, List.length_nil]
            omega
          simp only [List.filter_cons, hm, if_pos]
          rw [h3, List.take_succ_cons]
          simp

theorem length_filter_partition {α : Type} (p : α → Bool) (l : List α) :
    (l.filter p).length + (l.filter (fun a => !p a)).length = l.length := by
  induction l with
  | nil => rfl
  | cons a rest ih =>
    cases h : p a <;> simp only [List.filter_cons, h] <;> simp <;> omega

theorem attemptRemovals_eq (ok : String → Bool) (files : List FsEntry) :
    attemptRemovals ok files
      = ((files.filter (fun f => ok f.name)).map (fun f => f.name),
         (files.filter (fun f => !ok f.name)).map (fun f => f.name)) := by
  suffices h : ∀ acc : List String × List String,
      files.foldl
        (fun acc f =>
          if ok f.name then (acc.1 ++ [f.name], acc.2)
          else (acc.1, acc.2 ++ [f.name])) acc
        = (acc.1 ++ (files.filter (fun f => ok f.name)).map (fun f => f.name),
           acc.2 ++ (files.filter (fun f => !ok f.name)).map (fun f => f.name)) by
    simpa [attemptRemovals] using h ([], [])
  induction files with
  | nil => intro acc; simp
  | cons f rest ih =>
    intro acc
    cases hf : ok f.name <;> simp [List.filter_cons, hf, ih]

theorem length_insertDesc (x : Nat × FsEntry) (l : List (Nat × FsEntry)) :
    (insertDesc x l).length = l.length + 1 := by
  induction l with
  | nil => rfl
  | cons y rest ih =>
    unfold insertDesc
    split <;> simp [ih]

theorem length_sortByMtimeDesc (l : List FsEntry) :
    (sortByMtimeDesc l).length = l.length := by
  unfold sortByMtimeDesc
  rw [List.length_map]
  have h : ∀ xs : List (Nat × FsEntry), (xs.foldr insertDesc []).length = xs.length := by
    intro xs
    induction xs with
    | nil => rfl
    | cons x rest ih => simp [List.foldr_cons, length_insertDesc, ih]
  rw [h, List.enum_length]

theorem cleanup_old_backups_eq (s : SysState) (files dirs : List FsEntry)
    (ok : String → Bool) :
    cleanup_old_backups s files dirs ok
      = if files.length ≤ s.max_backups then
          { removed_archives := [], failed_archive_removals := [],
            removed_dirs := [], failed_dir_removals := [] }
        else
          let fr := (sortByMtimeDesc files).drop s.max_backups
          let dr := if dirs.length > s.max_backups then
              (sortByMtimeDesc dirs).drop s.max_backups
            else []
          { removed_archives := (fr.filter (fun f => ok f.name)).map (fun f => f.name),
            failed_archive_removals :=
              (fr.filter (fun f => !ok f.name)).map (fun f => f.name),
            removed_dirs := (dr.filter (fun f => ok f.name)).map (fun f => f.name),
            failed_dir_removals :=
              (dr.filter (fun f => !ok f.name)).map (fun f => f.name) } := by
  simp only [cleanup_old_backups, length_sortByMtimeDesc]
  by_cases h : files.length ≤ s.max_backups
  · rw [if_pos h, if_pos h]
  · rw [if_neg h, if_neg h]
    by_cases hd : dirs.length > s.max_backups
    · rw [if_pos hd, if_pos hd]
      simp [attemptRemovals_eq]
    · rw [if_neg hd, if_neg hd]
      simp [attemptRemovals_eq]

theorem dictGet?_dictSet_self {α : Type} (m : List (String × α)) (k : String) (v : α) :
    dictGet? (dictSet m k v) k = some v := by
  induction m with
  | nil => simp [dictSet, dictGet?]
  | cons p rest ih =>
    by_cases h : p.1 = k
    · simp only [dictSet, if_pos h, dictGet?]
      rw [List.find?_cons_of_pos _ (by simp)]
      rfl
    · simp only [dictSet, if_neg h, dictGet?]
      rw [List.find?_cons_of_neg _ (by simp [h])]
      exact ih

theorem dictGet?_dictSet_ne {α : Type} (m : List (String × α)) (k k2 : String) (v : α)
    (h : k2 ≠ k) :
    dictGet? (dictSet m k2 v) k = dictGet? m k := by
  induction m with
  | nil => simp [dictSet, dictGet?, h]
  | cons p rest ih =>
    by_cases hp : p.1 = k2
    · have hpk : ¬p.1 = k := by rw [hp]; exact h
      simp only [dictSet, if_pos hp, dictGet?]
      rw [List.find?_cons_of_neg _ (by simp [h]),
        List.find?_cons_of_neg _ (by simp [hpk])]
    · simp only [dictSet, if_neg hp, dictGet?]
      by_cases hk : p.1 = k
      · rw [List.find?_cons_of_pos _ (by simp [hk]),
          List.find?_cons_of_pos _ (by simp [hk])]
      · rw [List.find?_cons_of_neg _ (by simp [hk]),
          List.find?_cons_of_neg _ (by simp [hk])]
        exact ih

theorem discover_foldl_not_mem (fetch : String → Except String (List ApiRepo))
    (details : String → Option String) :
    ∀ (wss : List String) (m : List (String × WorkspaceEntry)) (ws : String),
    ws ∉ wss →
    dictGet?
      (wss.foldl (fun acc w => dictSet acc w (workspaceEntryFor fetch details w)) m) ws
      = dictGet? m ws := by
  intro wss
  induction wss with
  | nil => intro m ws _; rfl
  | cons w rest ih =>
    intro m ws h
    simp only [List.mem_cons, not_or] at h
    simp only [List.foldl_cons]
    rw [ih _ ws h.2, dictGet?_dictSet_ne _ _ _ _ (fun he => h.1 (he.symm))]

theorem discover_foldl_mem (fetch : String → Except String (List ApiRepo))
    (details : String → Option String) :
    ∀ (wss : List String) (m : List (String × WorkspaceEntry)) (ws : String),
    ws ∈ wss →
    dictGet?
      (wss.foldl (fun acc w => dictSet acc w (workspaceEntryFor fetch details w)) m) ws
      = some (workspaceEntryFor fetch details ws) := by
  intro wss
  induction wss with
  | nil => intro m ws h; cases h
  | cons w rest ih =>
    intro m ws h
    simp only [List.foldl_cons]
    by_cases hr : ws ∈ rest
    · exact ih _ ws hr
    · have hw : ws = w := by
        rcases List.mem_cons.mp h with h1 | h1
        · exact h1
        · exact absurd h1 hr
      rw [discover_foldl_not_mem fetch details rest _ ws hr, hw,
        dictGet?_dictSet_self]

/-! ## Claim theorems -/

/-- C3: for every candidate name and filter configuration, the repository
filter admits the candidate per the spec's rule — exclusion wins
unconditionally; otherwise a non-empty include list requires a substring
match; otherwise admit — and `apply_repository_filters` keeps exactly the
admitted repositories whenever the cap does not bind; in particular
`["app", "app-test", "lib"]` with include `"app"` and exclude `"test"`
filters to exactly `["app"]`. -/
theorem filter_admission_rule :
    (∀ (s : SysState) (name : String),
      repo_matches s name = specFilterMatches s name) ∧
    (∀ (s : SysState) (repos : List ApiRepo),
      repos.length ≤ s.auto_discovery_max_repos →
      apply_repository_filters s repos
        = repos.filter (fun r => repo_matches s r.name)) ∧
    apply_repository_filters scenarioAState scenarioARepos = [{ name := "app" }] := by
  refine ⟨fun s name => ?_, fun s repos h => ?_, by decide⟩
  · unfold repo_matches specFilterMatches
    cases hE : s.repo_exclude_patterns.any (fun p => isSubstringOf p name) <;>
      cases hI : s.repo_include_patterns.isEmpty <;>
        simp [hE, hI]
  · unfold apply_repository_filters
    by_cases hp : (s.repo_include_patterns.isEmpty &&
        s.repo_exclude_patterns.isEmpty) = true
    · rw [if_pos hp]
      symm
      apply List.filter_eq_self.mpr
      intro r _
      simp only [Bool.and_eq_true, List.isEmpty_iff] at hp
      simp [repo_matches, hp.1, hp.2]
    · rw [if_neg hp,
        apply_repository_filters_loop_eq s repos [] (Nat.zero_le _)]
      simp only [List.nil_append, List.length_nil, Nat.sub_zero]
      exact List.take_of_length_le (le_trans (List.length_filter_le _ _) h)

/-- C3 witness: the general admission equation instantiated at scenario A's
configuration and repository list. -/
theorem filter_admission_rule_witness :
    scenarioARepos.length ≤ scenarioAState.auto_discovery_max_repos ∧
    apply_repository_filters scenarioAState scenarioARepos
      = scenarioARepos.filter (fun r => repo_matches scenarioAState r.name) :=
  ⟨by decide, filter_admission_rule.2.1 scenarioAState scenarioARepos (by decide)⟩

/-- C6 counterexample: with an include pattern configured and
`auto_discovery_max_repos = 0`, `apply_repository_filters` returns the empty
list, not the unmodified input the claim requires for `maxCount == 0`. -/
theorem cap_zero_returns_empty_not_input :
    apply_repository_filters capZeroState capZeroRepos = [] ∧
    capZeroRepos ≠ [] := by
  exact ⟨by decide, by decide⟩

/-- C6 amended: when no include or exclude pattern is configured the input
list is returned unchanged and the cap is not applied at all; when at least
one pattern is configured the result is the order-preserving prefix of the
filtered list of length at most `auto_discovery_max_repos` — in particular a
cap of 0 yields the empty list, not the unchanged input. -/
theorem apply_repository_filters_characterization :
    ∀ (s : SysState) (repos : List ApiRepo),
      apply_repository_filters s repos
        = if s.repo_include_patterns.isEmpty && s.repo_exclude_patterns.isEmpty then
            repos
          else
            (repos.filter (fun r => repo_matches s r.name)).take
              s.auto_discovery_max_repos := by
  intro s repos
  unfold apply_repository_filters
  by_cases hp : (s.repo_include_patterns.isEmpty &&
      s.repo_exclude_patterns.isEmpty) = true
  · rw [if_pos hp, if_pos hp]
  · rw [if_neg hp, if_neg hp,
      apply_repository_filters_loop_eq s repos [] (Nat.zero_le _)]
    simp

/-- C4: for every constructor-produced state the workspace filter returns the
discovered list unchanged — the guard reads `workspace_filters`, which
`__init__` never assigns, so the include/exclude patterns (which it does
parse) are never consulted; concretely, with exclude pattern `"test"`
configured, workspace `"test-ws"` survives filtering and receives a discovery
map entry, contradicting the claim that it is absent. -/
theorem workspace_filters_never_applied :
    (∀ (env : Env) (ws : List String),
      apply_workspace_filters (mkState env) ws = ws) ∧
    (mkState wsExcludeEnv).workspace_exclude_patterns = ["test"] ∧
    apply_workspace_filters (mkState wsExcludeEnv) wsDiscovered = wsDiscovered ∧
    dictGet?
      (auto_discover_structure (mkState wsExcludeEnv) wsDiscovered wsFetch noDetails)
      "test-ws"
      = some { workspace_info := none,
               repositories := [mkRepoInfo "test-ws" { name := "test-ws-repo" }],
               repo_count := 1, error := none } := by
  exact ⟨fun env ws => rfl, by decide, by decide, by decide⟩

/-- C5: the pagination loop does NOT treat an unchanged cursor as
end-of-stream — on the degenerate stream whose every page carries an empty
item list and a `next` cursor equal to the requested URL, no amount of fuel
makes the loop finish: it re-requests the same cursor forever, for both
`fetch_paginated_data` and `fetch_paginated_data_with_auth`. -/
theorem degenerate_stream_never_terminates (u : String) (fuel : Nat) :
    (∀ acc : List Nat,
      fetchPages (degenerateServer u) fuel u acc = .outOfFuel acc) ∧
    fetch_paginated_data (degenerateServer u) fuel u = .outOfFuel [] ∧
    fetch_paginated_data_with_auth (degenerateServer u) fuel u = .outOfFuel [] := by
  have h : ∀ (n : Nat) (acc : List Nat),
      fetchPages (degenerateServer u) n u acc = .outOfFuel acc := by
    intro n
    induction n with
    | zero => intro acc; rfl
    | succ k ih =>
      intro acc
      simp only [fetchPages, degenerateServer]
      rw [List.append_nil]
      exact ih acc
  exact ⟨h fuel, h fuel [], h fuel []⟩

/-- C7 counterexample: with zero archives and six timestamped directories at
`max_backups = 5`, `cleanup_old_backups` removes nothing — the early return
on the archive count skips directory pruning entirely, so the "same rule"
is not applied to the directories (it would delete the oldest one). -/
theorem dir_pruning_gated_on_archive_count :
    cleanup_old_backups baseState [] sixDirs allRemovalsOk
      = { removed_archives := [], failed_archive_removals := [],
          removed_dirs := [], failed_dir_removals := [] } ∧
    sixDirs.length > baseState.max_backups := by
  exact ⟨by decide, by decide⟩

/-- C7 amended: when at most `max_backups` archives exist nothing at all is
deleted (and no error is raised); otherwise exactly
`archiveCount - max_backups` archive deletions are attempted (so at most
that many archives are deleted), directory pruning attempts
`dirCount - max_backups` deletions but ONLY when the archive count exceeds
`max_backups`, an individual deletion failure is recorded and never stops
the remaining deletions, and in scenario D (7 archives with ascending
modification times, `max_backups = 5`) exactly the two oldest archives are
removed while a repository with 3 archives loses none. -/
theorem cleanup_retention_characterization :
    (∀ (s : SysState) (files dirs : List FsEntry) (ok : String → Bool),
      files.length ≤ s.max_backups →
      cleanup_old_backups s files dirs ok
        = { removed_archives := [], failed_archive_removals := [],
            removed_dirs := [], failed_dir_removals := [] }) ∧
    (∀ (s : SysState) (files dirs : List FsEntry) (ok : String → Bool),
      (cleanup_old_backups s files dirs ok).removed_archives.length +
        (cleanup_old_backups s files dirs ok).failed_archive_removals.length
        = files.length - s.max_backups) ∧
    (∀ (s : SysState) (files dirs : List FsEntry) (ok : String → Bool),
      (cleanup_old_backups s files dirs ok).removed_dirs.length +
        (cleanup_old_backups s files dirs ok).failed_dir_removals.length
        = if files.length ≤ s.max_backups then 0 else dirs.length - s.max_backups) ∧
    (cleanup_old_backups baseState sevenArchives [] allRemovalsOk).removed_archives
      = ["a2", "a1"] ∧
    cleanup_old_backups baseState threeArchives [] allRemovalsOk
      = { removed_archives := [], failed_archive_removals := [],
          removed_dirs := [], failed_dir_removals := [] } ∧
    cleanup_old_backups baseState sevenArchives [] a2RemovalFails
      = { removed_archives := ["a1"], failed_archive_removals := ["a2"],
          removed_dirs := [], failed_dir_removals := [] } := by
  refine ⟨fun s files dirs ok h => ?_, fun s files dirs ok => ?_,
    fun s files dirs ok => ?_, by decide, by decide, by decide⟩
  · rw [cleanup_old_backups_eq, if_pos h]
  · rw [cleanup_old_backups_eq]
    by_cases h : files.length ≤ s.max_backups
    · rw [if_pos h]
      simp [Nat.sub_eq_zero_of_le h]
    · rw [if_neg h]
      simp only [List.length_map]
      rw [length_filter_partition, List.length_drop, length_sortByMtimeDesc]
  · rw [cleanup_old_backups_eq]
    by_cases h : files.length ≤ s.max_backups
    · rw [if_pos h, if_pos h]
      rfl
    · rw [if_neg h, if_neg h]
      by_cases hd : dirs.length > s.max_backups
      · simp only [if_pos hd, List.length_map]
        rw [length_filter_partition, List.length_drop, length_sortByMtimeDesc]
      · simp only [if_neg hd]
        simp only [List.filter_nil, List.map_nil, List.length_nil]
        omega

/-- C7 witness: the no-deletion branch instantiated — a repository with three
archives (fewer than `max_backups = 5`) and six stale directories loses
nothing and raises no error. -/
theorem cleanup_retention_characterization_witness :
    threeArchives.length ≤ baseState.max_backups ∧
    cleanup_old_backups baseState threeArchives sixDirs allRemovalsOk
      = { removed_archives := [], failed_archive_removals := [],
          removed_dirs := [], failed_dir_removals := [] } :=
  ⟨by decide,
    cleanup_retention_characterization.1 baseState threeArchives sixDirs
      allRemovalsOk (by decide)⟩

/-- C8: every workspace slug given to
`discover_all_repositories_in_workspaces` appears as a key of the resulting
map, its entry depending only on its own listing outcome — a listing error
yields an entry with an empty repository list (and the error recorded), so
an error in one workspace never prevents the others' discovery, and a
successful listing keeps the full repository list (mapped to `repo_info`
records). -/
theorem workspace_scan_isolation
    (fetch : String → Except String (List ApiRepo))
    (details : String → Option String) (wss : List String) (ws : String)
    (h : ws ∈ wss) :
    dictGet? (discover_all_repositories_in_workspaces fetch details wss) ws
      = some (workspaceEntryFor fetch details ws) ∧
    (∀ e, fetch ws = .error e →
      (workspaceEntryFor fetch details ws).repositories = [] ∧
      (workspaceEntryFor fetch details ws).error = some e) ∧
    (∀ rs, fetch ws = .ok rs →
      (workspaceEntryFor fetch details ws).repositories
        = rs.map (mkRepoInfo ws) ∧
      (workspaceEntryFor fetch details ws).error = none) := by
  refine ⟨discover_foldl_mem fetch details wss [] ws h, ?_, ?_⟩
  · intro e he
    simp [workspaceEntryFor, he]
  · intro rs hrs
    unfold workspaceEntryFor
    rw [hrs]
    by_cases he : rs.isEmpty = true
    · rw [List.isEmpty_iff] at he
      simp [he]
    · simp only [he]
      exact ⟨rfl, rfl⟩

/-- C8 witness: two workspaces where listing `"alpha"` fails with an HTTP
error — `"alpha"` still appears in the map with an empty repository list and
the error recorded, and `"beta"` keeps its two repositories. -/
theorem workspace_scan_isolation_witness :
    dictGet?
      (discover_all_repositories_in_workspaces c8Fetch noDetails ["alpha", "beta"])
      "alpha"
      = some { workspace_info := none, repositories := [], repo_count := 0,
               error := some "HTTP 500" } ∧
    dictGet?
      (discover_all_repositories_in_workspaces c8Fetch noDetails ["alpha", "beta"])
      "beta"
      = some { workspace_info := none,
               repositories := [mkRepoInfo "beta" { name := "r1" },
                                mkRepoInfo "beta" { name := "r2" }],
               repo_count := 2, error := none } := by
  constructor
  · rw [(workspace_scan_isolation c8Fetch noDetails ["alpha", "beta"] "alpha"
      (by decide)).1]
    decide
  · rw [(workspace_scan_isolation c8Fetch noDetails ["alpha", "beta"] "beta"
      (by decide)).1]
    decide

/-- C1: a mirror clone that exits non-zero makes `clone_repository` return
`None` after exactly the one git invocation — it does not raise — and the
orchestrator loop increments the success counter and records
`success = True` whenever no exception escapes an iteration; so in scenario
C (3 repositories, `"lib"`'s mirror clone fails, everything else succeeds)
the final statistics show ALL THREE repositories successful, `"lib"`
included, and the process exit code is 0 — not the `successCount == 2`,
`success == false`, exit 1 the claim requires. -/
theorem mirror_clone_failure_recorded_as_success :
    (clone_repository stateWithGitCreds "20240101_000000" libRepo gitAlwaysFails).1
      = .ok none ∧
    (clone_repository stateWithGitCreds "20240101_000000" libRepo gitAlwaysFails).2.length
      = 1 ∧
    backup_all_repositories true scenarioCRun
      = ({ total_repos := 3, successful_repos := 3, failed_repos := 0,
           repo_details := [{ name := "app", success := true },
                            { name := "app-test", success := true },
                            { name := "lib", success := true }],
           errors := [] }, true) ∧
    mainExitCode true scenarioCRun = 0 := by
  exact ⟨rfl, rfl, by decide, by decide⟩

/-- C2: `create_migrated_repository`, when handed the pre-fetched destination
set, does resolve `"app"` to the existing record with no create call under
the skip policy — but the orchestrator's step 3 calls the legacy wrapper
`create_mirror_repository`, which forwards WITHOUT that set, so on the very
same input a create POST for `"app"` is issued (returning no usable record
on the resulting conflict); universally, the wrapper POSTs the target name
for every repository no matter what the destination already contains. -/
theorem prefetched_destination_set_unused_in_loop :
    create_migrated_repository baseState appRepo (some destHasApp) conflictApi
      = (some { name := "app", full_name := "dest/app" }, []) ∧
    baseState.skip_existing_repos = true ∧
    (dictGet? destHasApp (migration_target_name baseState appRepo)).isSome = true ∧
    create_mirror_repository baseState appRepo conflictApi = (none, ["app"]) ∧
    (∀ (s : SysState) (repo : ApiRepo) (api : String → CreateApiResult),
      (create_mirror_repository s repo api).2 = [migration_target_name s repo]) := by
  refine ⟨by decide, by decide, by decide, by decide, fun s repo api => ?_⟩
  have hw : create_mirror_repository s repo api
      = match api (migration_target_name s repo) with
        | .created r => (some r, [migration_target_name s repo])
        | .conflict => (none, [migration_target_name s repo])
        | .requestError => (none, [migration_target_name s repo]) := rfl
  rw [hw]
  cases api (migration_target_name s repo) <;> rfl

/-- C9 counterexample: an iteration whose metadata step raises is recorded as
failed and does NOT execute the post-iteration pause — the `continue` in the
exception handler skips `time.sleep(1)`, so the pause is not independent of
success/failure. -/
theorem failed_iteration_skips_pause :
    (processOneRepo true metadataRaises).stats.success = false ∧
    (processOneRepo true metadataRaises).slept = false := by
  exact ⟨by decide, by decide⟩

/-- C9 amended: the fixed post-iteration pause executes exactly when the
iteration completed without an uncaught exception (i.e. was recorded
successful); a failed repository's `continue` proceeds to the next
repository immediately. -/
theorem pause_iff_iteration_succeeded :
    ∀ (migration_mode : Bool) (b : RepoBehavior),
      (processOneRepo migration_mode b).slept
        = (processOneRepo migration_mode b).stats.success := by
  intro mig b
  obtain ⟨repo, metadata, clone, ensure, push, archive, cleanup⟩ := b
  cases metadata with
  | raises => rfl
  | rets mp =>
    cases clone with
    | raises => rfl
    | rets cp =>
      cases ensure with
      | raises => rfl
      | rets dr =>
        cases mp <;> cases cp <;> cases dr <;>
          cases push <;> cases archive <;> cases cleanup <;> rfl

/-- C10: for every environment, the constructor-produced state leaves
`bitbucket_username` / `bitbucket_workspace` / `bitbucket_api_token`
unassigned, so for every repository with an HTTPS clone link
`clone_repository` raises `AttributeError` while building the authenticated
URL, before any git command is invoked; and any repository whose clone step
raises is recorded as failed by the per-repository handler. -/
theorem clone_step_raises_attribute_error :
    (∀ (env : Env) (timestamp : String) (repo : ApiRepo) (git : GitOracle)
      (url : String), find_https_clone_url repo = some url →
      clone_repository (mkState env) timestamp repo git
        = (.error .attributeError, [])) ∧
    (∀ (migration_mode : Bool) (b : RepoBehavior), b.clone = .raises →
      (processOneRepo migration_mode b).stats.success = false ∧
      (processOneRepo migration_mode b).stats.name = b.repo.name) := by
  constructor
  · intro env timestamp repo git url h
    unfold clone_repository
    rw [h]
    rfl
  · intro mig b h
    obtain ⟨repo, metadata, clone, ensure, push, archive, cleanup⟩ := b
    subst h
    cases metadata <;> exact ⟨rfl, rfl⟩

/-- C10 witness: the empty environment and the repository `"lib"` (which has
an HTTPS clone link): the clone step raises `AttributeError` and runs no git
command. -/
theorem clone_step_raises_attribute_error_witness :
    find_https_clone_url libRepo = some "https://bitbucket.org/ws/lib.git" ∧
    clone_repository (mkState emptyEnv) "20240101_000000" libRepo gitAlwaysOk
      = (.error .attributeError, []) :=
  ⟨rfl,
    clone_step_raises_attribute_error.1 emptyEnv "20240101_000000" libRepo
      gitAlwaysOk "https://bitbucket.org/ws/lib.git" rfl⟩

end BitbucketBackup
